import Mathlib

/-!
# Verification of the jaeger-idl demo query service

A shallow embedding of the two in-memory Jaeger query-service variants in this
repository: the flat api_v2 span-list variant and the hierarchical OTLP
(resource → scope → span) api_v3 variant.  Go maps are modelled as association
lists (`mapGet` / `mapPut`), the gRPC stream as an explicit list of delivered
chunks together with an optional error; the outcome of each `stream.Send` call
is supplied as a function from the send index to an optional transport error.
-/

/-- Query parameters shared by both variants (api_v3 `TraceQueryParameters`):
the service name being searched for and the (possibly empty) operation name. -/
structure TraceQueryParameters where
  serviceName : String
  operationName : String
deriving DecidableEq

/-- Go map read `m[k]` (the two-valued form `v, ok := m[k]`). -/
def mapGet {α : Type} : List (String × α) → String → Option α
  | [], _ => none
  | (k2, v) :: rest, k => if k2 == k then some v else mapGet rest k

/-- Go map assignment `m[k] = v`: insert or replace, keys stay unique. -/
def mapPut {α : Type} : List (String × α) → String → α → List (String × α)
  | [], k, v => [(k, v)]
  | (k2, v2) :: rest, k, v =>
    if k2 == k then (k, v) :: rest else (k2, v2) :: mapPut rest k v

/-- Delivering a list of prepared chunks over a stream whose send outcomes are
given by `send`: on the first failing send the remaining chunks are dropped and
the error is returned; chunks delivered before it are kept. -/
def sendChunks {α : Type} : List α → (Nat → Option String) → Nat → List α × Option String
  | [], _, _ => ([], none)
  | c :: rest, send, k =>
    match send k with
    | some e => ([], some e)
    | none =>
      let r := sendChunks rest send (k + 1)
      (c :: r.1, r.2)

namespace ApiV2

/-- `model.Process` of the flat variant: owning service plus process tags. -/
structure Process where
  serviceName : String
  tags : List (String × String)
deriving DecidableEq

/-- A span reference (`model.SpanRef`): target trace/span and relationship. -/
structure SpanRef where
  traceID : String
  spanID : Nat
  refType : Nat
deriving DecidableEq

/-- `model.Span` (api_v2 flat span): the fields the demo service populates.
`process` is a pointer in Go and hence optional here. -/
structure Span where
  traceID : String
  spanID : Nat
  operationName : String
  references : List SpanRef
  startTime : Nat
  duration : Nat
  process : Option Process
  tags : List (String × String)
deriving DecidableEq

/-- A stored trace: the span list kept under one trace identifier. -/
abbrev Trace := List Span

/-- The trace store `traces map[string][]*api_v2.Span`. -/
abbrev Store := List (String × Trace)

/-- `GetTrace` (flat variant): look the identifier up; when found, send the
single chunk holding the full span list (the send outcome is `send`); when the
send fails return its error; when the identifier is absent, succeed having sent
nothing. -/
def GetTrace (traces : Store) (traceId : String) (send : Option String) :
    List Trace × Option String :=
  match mapGet traces traceId with
  | some spans =>
    match send with
    | some e => ([], some e)
    | none => ([spans], none)
  | none => ([], none)

/-- The per-span test inside `FindTraces` (flat variant):
`span.Process != nil && span.Process.ServiceName == req.Query.ServiceName`
and then `req.Query.OperationName == "" || span.OperationName == req.Query.OperationName`. -/
def spanMatches (query : TraceQueryParameters) (span : Span) : Bool :=
  match span.process with
  | none => false
  | some p =>
    p.serviceName == query.serviceName &&
      (query.operationName == "" || span.operationName == query.operationName)

/-- A trace matches when at least one of its spans does (the matching loop
with its early `break`). -/
def traceMatches (query : TraceQueryParameters) (spans : Trace) : Bool :=
  spans.any (spanMatches query)

/-- The traces `FindTraces` matches, in store-enumeration order. -/
def FindTracesMatches (traces : Store) (query : TraceQueryParameters) : Store :=
  traces.filter (fun p => traceMatches query p.2)

/-- The search loop of `FindTraces`: scan the store entries in order, send the
full span list of each matching trace, and return the first send error, if
any, abandoning the rest of the scan. `k` counts the sends performed. -/
def FindTracesAux (query : TraceQueryParameters) :
    Store → (Nat → Option String) → Nat → List Trace × Option String
  | [], _, _ => ([], none)
  | (_, spans) :: rest, send, k =>
    if traceMatches query spans then
      match send k with
      | some e => ([], some e)
      | none =>
        let r := FindTracesAux query rest send (k + 1)
        (spans :: r.1, r.2)
    else
      FindTracesAux query rest send k

/-- `FindTraces` (flat variant): the streamed search over the whole store. -/
def FindTraces (traces : Store) (query : TraceQueryParameters)
    (send : Nat → Option String) : List Trace × Option String :=
  FindTracesAux query traces send 0

/-- `api_v2.GetServicesResponse`. -/
structure GetServicesResponse where
  services : List String
deriving DecidableEq

/-- `GetServices`: return the service list; never an error. -/
def GetServices (services : List String) : GetServicesResponse × Option String :=
  ({ services := services }, none)

/-- `api_v2.GetOperationsRequest`: service name and span-kind filter. -/
structure GetOperationsRequest where
  service : String
  spanKind : String
deriving DecidableEq

/-- `api_v2.Operation`: operation name with its span-kind annotation. -/
structure Operation where
  name : String
  spanKind : String
deriving DecidableEq

/-- `api_v2.GetOperationsResponse`. -/
structure GetOperationsResponse where
  operations : List Operation
deriving DecidableEq

/-- `GetOperations` (flat variant): list the stored operation names of the
requested service, each annotated with the request's span kind; unknown
services yield the empty list; never an error. -/
def GetOperations (operations : List (String × List String))
    (req : GetOperationsRequest) : GetOperationsResponse × Option String :=
  match mapGet operations req.service with
  | some ops =>
    ({ operations := ops.map (fun opName => { name := opName, spanKind := req.spanKind }) },
      none)
  | none => ({ operations := [] }, none)

/-- `api_v2.DependencyLink`: one directed edge of the dependency graph. -/
structure DependencyLink where
  parent : String
  child : String
  callCount : Nat
deriving DecidableEq

/-- `api_v2.GetDependenciesResponse`. -/
structure GetDependenciesResponse where
  dependencies : List DependencyLink
deriving DecidableEq

/-- `GetDependencies`: the static demo dependency edges; never an error. -/
def GetDependencies : GetDependenciesResponse × Option String :=
  ({ dependencies :=
      [{ parent := "frontend", child := "auth-service", callCount := 10 },
       { parent := "auth-service", child := "database", callCount := 8 }] },
    none)

/-- The mutable state of the flat-variant `QueryService`. -/
structure QueryService where
  traces : Store
  services : List String
  operations : List (String × List String)

/-- One inbound request to the flat-variant service, carrying the stream's
send outcomes for the streaming operations. -/
inductive Request where
  | getTrace (traceId : String) (send : Option String)
  | findTraces (query : TraceQueryParameters) (send : Nat → Option String)
  | getServices
  | getOperations (req : GetOperationsRequest)
  | getDependencies

/-- What a handler produced: delivered chunks or a unary response, with the
returned error, if any. -/
inductive Response where
  | traceChunks (chunks : List Trace) (err : Option String)
  | services (resp : GetServicesResponse) (err : Option String)
  | operations (resp : GetOperationsResponse) (err : Option String)
  | dependencies (resp : GetDependenciesResponse) (err : Option String)

/-- Dispatch of one request on the service state: each handler reads the
state and returns it untouched alongside its response. -/
def handle (q : QueryService) (req : Request) : QueryService × Response :=
  match req with
  | .getTrace traceId send =>
    let r := GetTrace q.traces traceId send
    (q, .traceChunks r.1 r.2)
  | .findTraces query send =>
    let r := FindTraces q.traces query send
    (q, .traceChunks r.1 r.2)
  | .getServices =>
    let r := GetServices q.services
    (q, .services r.1 r.2)
  | .getOperations req2 =>
    let r := GetOperations q.operations req2
    (q, .operations r.1 r.2)
  | .getDependencies =>
    (q, .dependencies GetDependencies.1 GetDependencies.2)

end ApiV2

namespace ApiV3

/-- OTLP `AnyValue`: the attribute-value variants the demo constructs. -/
inductive AnyValue where
  | stringValue (s : String)
  | intValue (n : Int)
deriving DecidableEq

/-- The proto getter `Value.GetStringValue()`: the string payload, or `""`
when the value is nil or holds a non-string variant. -/
def GetStringValue : Option AnyValue → String
  | some (.stringValue s) => s
  | _ => ""

/-- OTLP `KeyValue`; the value is a pointer in Go and hence optional. -/
structure KeyValue where
  key : String
  value : Option AnyValue
deriving DecidableEq

/-- OTLP `Resource`: a bag of attributes. -/
structure Resource where
  attributes : List KeyValue
deriving DecidableEq

/-- OTLP `Span`: the fields the demo populates. -/
structure Span where
  traceId : List Nat
  spanId : List Nat
  parentSpanId : List Nat
  name : String
  startTimeUnixNano : Nat
  endTimeUnixNano : Nat
  kind : Nat
  attributes : List KeyValue
deriving DecidableEq

/-- OTLP `ScopeSpans`: spans grouped under one instrumentation scope. -/
structure ScopeSpans where
  spans : List Span
deriving DecidableEq

/-- OTLP `ResourceSpans`: an optional resource and its scope groups. -/
structure ResourceSpans where
  resource : Option Resource
  scopeSpans : List ScopeSpans
deriving DecidableEq

/-- OTLP `TracesData`: all resource-span groups of one trace. -/
structure TracesData where
  resourceSpans : List ResourceSpans
deriving DecidableEq

/-- The trace store `traces map[string]*trace.TracesData`. -/
abbrev Store := List (String × TracesData)

/-- The scan inside `getServiceName`: the string value of the first
`service.name` attribute, or `""` when none is present. -/
def findServiceName : List KeyValue → String
  | [] => ""
  | attr :: rest =>
    if attr.key == "service.name" then GetStringValue attr.value
    else findServiceName rest

/-- `getServiceName`: `""` for a nil resource, otherwise the resource's
`service.name` attribute value. -/
def getServiceName : Option Resource → String
  | none => ""
  | some r => findServiceName r.attributes

/-- `GetTrace` (hierarchical variant): look the identifier up; when found,
send one `TracesData` chunk carrying the stored resource spans; a failed send
returns its error; an absent identifier succeeds having sent nothing. -/
def GetTrace (traces : Store) (traceId : String) (send : Option String) :
    List TracesData × Option String :=
  match mapGet traces traceId with
  | some td =>
    match send with
    | some e => ([], some e)
    | none => ([{ resourceSpans := td.resourceSpans }], none)
  | none => ([], none)

/-- The inner span scan of `FindTraces`: does some span in this scope group
carry the requested operation name? -/
def scopeSpansHasOperation (operationName : String) (ss : ScopeSpans) : Bool :=
  ss.spans.any (fun span => span.name == operationName)

/-- The per-`ResourceSpans` test of `FindTraces` (hierarchical variant): the
resource's service name equals the query's, and either no operation name was
given or some span under this resource carries it. -/
def resourceSpansMatches (query : TraceQueryParameters) (rs : ResourceSpans) : Bool :=
  getServiceName rs.resource == query.serviceName &&
    (query.operationName == "" || rs.scopeSpans.any (scopeSpansHasOperation query.operationName))

/-- A trace matches when at least one of its resource-span groups does. -/
def traceMatches (query : TraceQueryParameters) (td : TracesData) : Bool :=
  td.resourceSpans.any (resourceSpansMatches query)

/-- The traces `FindTraces` matches, in store-enumeration order. -/
def FindTracesMatches (traces : Store) (query : TraceQueryParameters) : Store :=
  traces.filter (fun p => traceMatches query p.2)

/-- The search loop of `FindTraces` (hierarchical variant); `k` counts the
sends performed. -/
def FindTracesAux (query : TraceQueryParameters) :
    Store → (Nat → Option String) → Nat → List TracesData × Option String
  | [], _, _ => ([], none)
  | (_, td) :: rest, send, k =>
    if traceMatches query td then
      match send k with
      | some e => ([], some e)
      | none =>
        let r := FindTracesAux query rest send (k + 1)
        ({ resourceSpans := td.resourceSpans } :: r.1, r.2)
    else
      FindTracesAux query rest send k

/-- `FindTraces` (hierarchical variant): the streamed search over the store. -/
def FindTraces (traces : Store) (query : TraceQueryParameters)
    (send : Nat → Option String) : List TracesData × Option String :=
  FindTracesAux query traces send 0

/-- `api_v3.GetServicesResponse`. -/
structure GetServicesResponse where
  services : List String
deriving DecidableEq

/-- `GetServices`: return the service list; never an error. -/
def GetServices (services : List String) : GetServicesResponse × Option String :=
  ({ services := services }, none)

/-- `api_v3.GetOperationsRequest`: the handler reads only `service`. -/
structure GetOperationsRequest where
  service : String
  spanKind : String
deriving DecidableEq

/-- `api_v3.Operation`: the handler fills only `name`, leaving `spanKind`
at its zero value. -/
structure Operation where
  name : String
  spanKind : String
deriving DecidableEq

/-- `api_v3.GetOperationsResponse`. -/
structure GetOperationsResponse where
  operations : List Operation
deriving DecidableEq

/-- `GetOperations` (hierarchical variant): the stored operation names of the
requested service; unknown services yield the empty list; never an error. -/
def GetOperations (operations : List (String × List String))
    (req : GetOperationsRequest) : GetOperationsResponse × Option String :=
  match mapGet operations req.service with
  | some ops =>
    ({ operations := ops.map (fun op => { name := op, spanKind := "" }) }, none)
  | none => ({ operations := [] }, none)

/-- The mutable state of the hierarchical-variant `QueryService`. -/
structure QueryService where
  traces : Store
  services : List String
  operations : List (String × List String)

/-- One inbound request to the hierarchical-variant service. -/
inductive Request where
  | getTrace (traceId : String) (send : Option String)
  | findTraces (query : TraceQueryParameters) (send : Nat → Option String)
  | getServices
  | getOperations (req : GetOperationsRequest)

/-- What a handler produced. -/
inductive Response where
  | traceChunks (chunks : List TracesData) (err : Option String)
  | services (resp : GetServicesResponse) (err : Option String)
  | operations (resp : GetOperationsResponse) (err : Option String)

/-- Dispatch of one request on the service state: each handler reads the
state and returns it untouched alongside its response. -/
def handle (q : QueryService) (req : Request) : QueryService × Response :=
  match req with
  | .getTrace traceId send =>
    let r := GetTrace q.traces traceId send
    (q, .traceChunks r.1 r.2)
  | .findTraces query send =>
    let r := FindTraces q.traces query send
    (q, .traceChunks r.1 r.2)
  | .getServices =>
    let r := GetServices q.services
    (q, .services r.1 r.2)
  | .getOperations req2 =>
    let r := GetOperations q.operations req2
    (q, .operations r.1 r.2)

/-- Modelled from the spec: the spec's per-span matching sentence for the
hierarchical representation — a trace matches iff at least one span under a
resource has owning service name equal to `serviceName` and (`operationName`
is empty or the span's name equals it).  Stated for comparison with the
implementation's `traceMatches`, which tests per resource group instead. -/
def specTraceMatches (query : TraceQueryParameters) (td : TracesData) : Bool :=
  td.resourceSpans.any (fun rs =>
    rs.scopeSpans.any (fun ss =>
      ss.spans.any (fun span =>
        getServiceName rs.resource == query.serviceName &&
          (query.operationName == "" || span.name == query.operationName))))

end ApiV3

/-! ## Helper lemmas -/

/-- When every send succeeds, all prepared chunks are delivered in order and
the stream finishes without an error. -/
theorem sendChunks_none {α : Type} (chunks : List α) (k : Nat) :
    sendChunks chunks (fun _ => none) k = (chunks, none) := by
  induction chunks generalizing k with
  | nil => rfl
  | cons c rest ih => simp [sendChunks, ih]

/-- When the first failing send is the `j`-th one (and a `j`-th chunk exists),
exactly the first `j` chunks are delivered and that send's error is returned. -/
theorem sendChunks_fail {α : Type} (chunks : List α) (send : Nat → Option String)
    (k j : Nat) (e : String) (h1 : ∀ i, i < j → send (k + i) = none)
    (h2 : send (k + j) = some e) (h3 : j < chunks.length) :
    sendChunks chunks send k = (chunks.take j, some e) := by
  induction chunks generalizing k j with
  | nil => simp at h3
  | cons c rest ih =>
    cases j with
    | zero =>
      have h2' : send k = some e := h2
      simp [sendChunks, h2']
    | succ j' =>
      have h0 : send k = none := by simpa using h1 0 (Nat.succ_pos j')
      have h1' : ∀ i, i < j' → send (k + 1 + i) = none := by
        intro i hi
        have hr := h1 (i + 1) (Nat.succ_lt_succ hi)
        rwa [Nat.add_right_comm]
      have h2' : send (k + 1 + j') = some e := by
        rwa [Nat.add_right_comm]
      have h3' : j' < rest.length := Nat.lt_of_succ_lt_succ h3
      simp [sendChunks, h0, ih (k + 1) j' h1' h2' h3']

/-- The flat-variant search loop is the delivery of the matched traces' span
lists, in store-enumeration order. -/
theorem findTracesAuxV2_eq_sendChunks (query : TraceQueryParameters)
    (entries : ApiV2.Store) (send : Nat → Option String) (k : Nat) :
    ApiV2.FindTracesAux query entries send k =
      sendChunks ((ApiV2.FindTracesMatches entries query).map (fun p => p.2)) send k := by
  induction entries generalizing k with
  | nil => rfl
  | cons p rest ih =>
    obtain ⟨id, spans⟩ := p
    by_cases h : ApiV2.traceMatches query spans = true
    · cases hs : send k with
      | some e => simp [ApiV2.FindTracesAux, ApiV2.FindTracesMatches, h, sendChunks, hs]
      | none =>
        simp [ApiV2.FindTracesAux, ApiV2.FindTracesMatches, h, sendChunks, hs, ih,
          ApiV2.FindTracesMatches]
    · simp [ApiV2.FindTracesAux, ApiV2.FindTracesMatches, h, ih]

/-- The hierarchical-variant search loop is the delivery of the matched
traces' resource-span sets, in store-enumeration order. -/
theorem findTracesAuxV3_eq_sendChunks (query : TraceQueryParameters)
    (entries : ApiV3.Store) (send : Nat → Option String) (k : Nat) :
    ApiV3.FindTracesAux query entries send k =
      sendChunks ((ApiV3.FindTracesMatches entries query).map (fun p => p.2)) send k := by
  induction entries generalizing k with
  | nil => rfl
  | cons p rest ih =>
    obtain ⟨id, td⟩ := p
    by_cases h : ApiV3.traceMatches query td = true
    · cases hs : send k with
      | some e => simp [ApiV3.FindTracesAux, ApiV3.FindTracesMatches, h, sendChunks, hs]
      | none =>
        simp [ApiV3.FindTracesAux, ApiV3.FindTracesMatches, h, sendChunks, hs, ih]
    · simp [ApiV3.FindTracesAux, ApiV3.FindTracesMatches, h, ih]

/-- Unfolding of the flat per-span test into a proposition. -/
theorem ApiV2.spanMatches_iff (query : TraceQueryParameters) (span : ApiV2.Span) :
    ApiV2.spanMatches query span = true ↔
      ∃ p, span.process = some p ∧ p.serviceName = query.serviceName ∧
        (query.operationName = "" ∨ span.operationName = query.operationName) := by
  cases h : span.process with
  | none => simp [ApiV2.spanMatches, h]
  | some p => simp [ApiV2.spanMatches, h]

/-- Unfolding of the flat per-trace test into a proposition. -/
theorem traceMatchesV2_iff (query : TraceQueryParameters) (spans : ApiV2.Trace) :
    ApiV2.traceMatches query spans = true ↔
      ∃ span ∈ spans, ∃ p, span.process = some p ∧
        p.serviceName = query.serviceName ∧
        (query.operationName = "" ∨ span.operationName = query.operationName) := by
  simp [ApiV2.traceMatches, List.any_eq_true, ApiV2.spanMatches_iff]

/-- Unfolding of the hierarchical per-resource-group test into a proposition. -/
theorem ApiV3.resourceSpansMatches_iff (query : TraceQueryParameters)
    (rs : ApiV3.ResourceSpans) :
    ApiV3.resourceSpansMatches query rs = true ↔
      ApiV3.getServiceName rs.resource = query.serviceName ∧
        (query.operationName = "" ∨
          ∃ ss ∈ rs.scopeSpans, ∃ span ∈ ss.spans, span.name = query.operationName) := by
  simp [ApiV3.resourceSpansMatches, ApiV3.scopeSpansHasOperation, List.any_eq_true]

/-- Unfolding of the hierarchical per-trace test into a proposition. -/
theorem traceMatchesV3_iff (query : TraceQueryParameters) (td : ApiV3.TracesData) :
    ApiV3.traceMatches query td = true ↔
      ∃ rs ∈ td.resourceSpans, ApiV3.getServiceName rs.resource = query.serviceName ∧
        (query.operationName = "" ∨
          ∃ ss ∈ rs.scopeSpans, ∃ span ∈ ss.spans, span.name = query.operationName) := by
  simp [ApiV3.traceMatches, List.any_eq_true, ApiV3.resourceSpansMatches_iff]

/-- Reading a key straight after writing it yields the written value. -/
theorem mapGet_mapPut {α : Type} (m : List (String × α)) (k : String) (v : α) :
    mapGet (mapPut m k v) k = some v := by
  induction m with
  | nil => simp [mapPut, mapGet]
  | cons p rest ih =>
    obtain ⟨k2, v2⟩ := p
    by_cases h : k2 = k
    · simp [mapPut, mapGet, h]
    · have hb : (k2 == k) = false := by simpa using h
      simp [mapPut, mapGet, hb, ih]

/-- Two consecutive writes to one key collapse to the second write. -/
theorem mapPut_mapPut {α : Type} (m : List (String × α)) (k : String) (v1 v2 : α) :
    mapPut (mapPut m k v1) k v2 = mapPut m k v2 := by
  induction m with
  | nil => simp [mapPut]
  | cons p rest ih =>
    obtain ⟨k2, w⟩ := p
    by_cases h : k2 = k
    · simp [mapPut, h]
    · have hb : (k2 == k) = false := by simpa using h
      simp [mapPut, hb, ih]

/-! ## Concrete data for counterexamples and witnesses -/

/-- A resource declaring service `frontend`. -/
def frontendResource : ApiV3.Resource :=
  { attributes := [{ key := "service.name", value := some (.stringValue "frontend") }] }

/-- A trace whose only resource group declares service `frontend` but holds
no spans at all. -/
def spanlessFrontendTrace : ApiV3.TracesData :=
  { resourceSpans := [{ resource := some frontendResource, scopeSpans := [] }] }

/-- A query for service `frontend` with no operation filter. -/
def frontendQuery : TraceQueryParameters :=
  { serviceName := "frontend", operationName := "" }

/-! ## Claim C1 -/

/-- Claim C1, counterexample: the hierarchical matcher tests per resource
group, not per span — a trace whose only `frontend` resource group holds zero
spans is emitted by `FindTraces({frontend, ""})` even though no span of the
trace satisfies the claim's per-span condition (`specTraceMatches` is the
claim's per-span matching predicate, and it is false here). -/
theorem findTraces_emits_spanless_resource_group :
    (ApiV3.FindTraces [("t1", spanlessFrontendTrace)] frontendQuery (fun _ => none)).1 =
      [spanlessFrontendTrace] ∧
    ApiV3.specTraceMatches frontendQuery spanlessFrontendTrace = false :=
  ⟨rfl, rfl⟩

/-- Claim C1 (amended): with every send succeeding, `FindTraces` emits
exactly the stored traces that match, each as its full span set.  In the flat
model a trace matches iff some span has a non-nil process whose service name
equals `serviceName` and (`operationName` is empty or equals the span's
operation name).  In the hierarchical model matching is per resource group: a
trace matches iff some `ResourceSpans` entry has resource service name equal
to `serviceName` and (`operationName` is empty or some span under that entry
bears it) — a span-free resource group with the right service name already
matches. -/
theorem findTraces_emission_characterization (query : TraceQueryParameters)
    (storeA : ApiV2.Store) (storeB : ApiV3.Store) :
    (∀ t, t ∈ (ApiV2.FindTraces storeA query (fun _ => none)).1 ↔
      ∃ id, (id, t) ∈ storeA ∧ ∃ span ∈ t, ∃ p, span.process = some p ∧
        p.serviceName = query.serviceName ∧
        (query.operationName = "" ∨ span.operationName = query.operationName)) ∧
    (∀ td, td ∈ (ApiV3.FindTraces storeB query (fun _ => none)).1 ↔
      ∃ id, (id, td) ∈ storeB ∧ ∃ rs ∈ td.resourceSpans,
        ApiV3.getServiceName rs.resource = query.serviceName ∧
        (query.operationName = "" ∨
          ∃ ss ∈ rs.scopeSpans, ∃ span ∈ ss.spans, span.name = query.operationName)) := by
  constructor
  · have hA : (ApiV2.FindTraces storeA query (fun _ => none)).1 =
        (ApiV2.FindTracesMatches storeA query).map (fun p => p.2) := by
      rw [ApiV2.FindTraces, findTracesAuxV2_eq_sendChunks, sendChunks_none]
    intro t
    rw [hA]
    simp only [List.mem_map, ApiV2.FindTracesMatches, List.mem_filter]
    constructor
    · rintro ⟨⟨id, t2⟩, ⟨hmem, hmatch⟩, rfl⟩
      exact ⟨id, hmem, (traceMatchesV2_iff query t2).1 hmatch⟩
    · rintro ⟨id, hmem, hex⟩
      exact ⟨(id, t), ⟨hmem, (traceMatchesV2_iff query t).2 hex⟩, rfl⟩
  · have hB : (ApiV3.FindTraces storeB query (fun _ => none)).1 =
        (ApiV3.FindTracesMatches storeB query).map (fun p => p.2) := by
      rw [ApiV3.FindTraces, findTracesAuxV3_eq_sendChunks, sendChunks_none]
    intro td
    rw [hB]
    simp only [List.mem_map, ApiV3.FindTracesMatches, List.mem_filter]
    constructor
    · rintro ⟨⟨id, td2⟩, ⟨hmem, hmatch⟩, rfl⟩
      exact ⟨id, hmem, (traceMatchesV3_iff query td2).1 hmatch⟩
    · rintro ⟨id, hmem, hex⟩
      exact ⟨(id, td), ⟨hmem, (traceMatchesV3_iff query td).2 hex⟩, rfl⟩

/-! ## Claim C2 -/

/-- A trace whose only resource group has a nil resource but does hold one
span. -/
def nilResourceTrace : ApiV3.TracesData :=
  { resourceSpans :=
      [{ resource := none,
         scopeSpans :=
           [{ spans :=
               [{ traceId := [], spanId := [], parentSpanId := [], name := "op",
                  startTimeUnixNano := 0, endTimeUnixNano := 0, kind := 0,
                  attributes := [] }] }] }] }

/-- Claim C2, counterexample: in the hierarchical model a nil resource is
read as service name `""`, so the query with empty `serviceName` matches and
the trace is emitted even though its only resource reference is absent. -/
theorem findTraces_nil_resource_matches_empty_service :
    (ApiV3.FindTraces [("t2", nilResourceTrace)]
        { serviceName := "", operationName := "" } (fun _ => none)).1 =
      [nilResourceTrace] ∧
    (∀ rs ∈ nilResourceTrace.resourceSpans, rs.resource = none) :=
  ⟨rfl, by decide⟩

/-- Claim C2 (amended): a flat-model span with a nil `Process` never matches,
for any query; a hierarchical resource group with a nil `Resource` is read as
service name `""`, so it never matches any non-empty `serviceName` (but can
match the empty one). -/
theorem missing_process_or_resource_no_match (query : TraceQueryParameters)
    (span : ApiV2.Span) (rs : ApiV3.ResourceSpans)
    (hspan : span.process = none) (hrs : rs.resource = none) :
    ApiV2.spanMatches query span = false ∧
      (query.serviceName ≠ "" → ApiV3.resourceSpansMatches query rs = false) := by
  constructor
  · simp [ApiV2.spanMatches, hspan]
  · intro hsvc
    have hg : ApiV3.getServiceName rs.resource = "" := by rw [hrs]; rfl
    simp only [ApiV3.resourceSpansMatches, hg]
    simp only [Bool.and_eq_false_iff, beq_eq_false_iff_ne, ne_eq]
    exact Or.inl (fun h => hsvc h.symm)

/-- Claim C2, witness: the amended theorem at a concrete nil-process span and
nil-resource group. -/
theorem missing_process_or_resource_no_match_witness :
    ApiV2.spanMatches frontendQuery
        { traceID := "t", spanID := 1, operationName := "op", references := [],
          startTime := 0, duration := 0, process := none, tags := [] } = false ∧
      (frontendQuery.serviceName ≠ "" →
        ApiV3.resourceSpansMatches frontendQuery
          { resource := none, scopeSpans := [] } = false) :=
  missing_process_or_resource_no_match frontendQuery
    { traceID := "t", spanID := 1, operationName := "op", references := [],
      startTime := 0, duration := 0, process := none, tags := [] }
    { resource := none, scopeSpans := [] } rfl rfl

/-! ## Claim C3 -/

/-- Claim C3, counterexample: an empty trace identifier is not rejected
before the store is consulted — the lookup happens (a stored entry under the
key `""` is found and returned), and when the key is absent the outcome
`([], none)` is exactly the NotFound outcome, not a distinct signal. -/
theorem getTrace_empty_id_is_ordinary_lookup :
    ApiV2.GetTrace [("", [])] "" none = ([[]], none) ∧
    ApiV2.GetTrace [("abcd", [])] "" none = ([], none) ∧
    ApiV3.GetTrace [("abcd", { resourceSpans := [] })] "" none = ([], none) :=
  ⟨rfl, rfl, rfl⟩

/-- Claim C3 (amended): `GetTrace` performs no validation of the trace
identifier; an empty identifier is processed as an ordinary store lookup, and
when the store has no entry under `""` the request completes successfully
with zero chunks — indistinguishable from the NotFound outcome. -/
theorem getTrace_empty_id_notfound_outcome (storeA : ApiV2.Store)
    (storeB : ApiV3.Store) (send : Option String)
    (hA : mapGet storeA "" = none) (hB : mapGet storeB "" = none) :
    ApiV2.GetTrace storeA "" send = ([], none) ∧
    ApiV3.GetTrace storeB "" send = ([], none) := by
  constructor
  · simp [ApiV2.GetTrace, hA]
  · simp [ApiV3.GetTrace, hB]

/-- Claim C3, witness: the amended theorem at concrete stores without a `""`
key. -/
theorem getTrace_empty_id_notfound_outcome_witness :
    ApiV2.GetTrace [("abcd", [])] "" none = ([], none) ∧
    ApiV3.GetTrace [] "" none = ([], none) :=
  getTrace_empty_id_notfound_outcome [("abcd", [])] [] none rfl rfl

/-! ## Claim C4 -/

/-- Claim C4: for every trace identifier absent from the store, `GetTrace`
completes successfully (no error) having sent zero chunks, in both variants —
the NotFound outcome is an empty result, never an error. -/
theorem getTrace_unknown_id_empty_success (storeA : ApiV2.Store)
    (storeB : ApiV3.Store) (traceId : String) (send : Option String)
    (hA : mapGet storeA traceId = none) (hB : mapGet storeB traceId = none) :
    ApiV2.GetTrace storeA traceId send = ([], none) ∧
    ApiV3.GetTrace storeB traceId send = ([], none) := by
  constructor
  · simp [ApiV2.GetTrace, hA]
  · simp [ApiV3.GetTrace, hB]

/-- Claim C4, witness: the theorem at a concrete store and an absent
identifier. -/
theorem getTrace_unknown_id_empty_success_witness :
    ApiV2.GetTrace [("abcd", [])] "deadbeef" none = ([], none) ∧
    ApiV3.GetTrace [("abcd", { resourceSpans := [] })] "deadbeef" none = ([], none) :=
  getTrace_unknown_id_empty_success [("abcd", [])]
    [("abcd", { resourceSpans := [] })] "deadbeef" none rfl rfl

/-! ## Claim C5 -/

/-- Claim C5: adding an operation-name filter never adds a match — in both
variants, every store entry matched by `FindTraces({S, O})` is also matched
by `FindTraces({S, ""})`. -/
theorem findTraces_operation_filter_subset (storeA : ApiV2.Store)
    (storeB : ApiV3.Store) (s o : String) :
    ApiV2.FindTracesMatches storeA { serviceName := s, operationName := o } ⊆
      ApiV2.FindTracesMatches storeA { serviceName := s, operationName := "" } ∧
    ApiV3.FindTracesMatches storeB { serviceName := s, operationName := o } ⊆
      ApiV3.FindTracesMatches storeB { serviceName := s, operationName := "" } := by
  constructor
  · intro x hx
    simp only [ApiV2.FindTracesMatches, List.mem_filter] at hx ⊢
    refine ⟨hx.1, ?_⟩
    obtain ⟨span, hmem, p, hp, hsvc, _⟩ := (traceMatchesV2_iff _ _).1 hx.2
    exact (traceMatchesV2_iff _ _).2 ⟨span, hmem, p, hp, hsvc, Or.inl rfl⟩
  · intro x hx
    simp only [ApiV3.FindTracesMatches, List.mem_filter] at hx ⊢
    refine ⟨hx.1, ?_⟩
    obtain ⟨rs, hmem, hsvc, _⟩ := (traceMatchesV3_iff _ _).1 hx.2
    exact (traceMatchesV3_iff _ _).2 ⟨rs, hmem, hsvc, Or.inl rfl⟩

/-! ## Claim C6 -/

/-- Claim C6: when the `j`-th send is the first to fail, both `GetTrace` and
`FindTraces` return that send's error unchanged; `FindTraces` delivers
exactly the matches sent before the failure (nothing is retracted) and
abandons the rest of the scan. -/
theorem stream_send_failure_aborts_and_propagates (storeA : ApiV2.Store)
    (storeB : ApiV3.Store) (query : TraceQueryParameters)
    (send : Nat → Option String) (j : Nat) (e : String) (idA idB : String)
    (tA : ApiV2.Trace) (tB : ApiV3.TracesData)
    (hA : mapGet storeA idA = some tA) (hB : mapGet storeB idB = some tB)
    (h1 : ∀ i, i < j → send i = none) (h2 : send j = some e)
    (h3A : j < (ApiV2.FindTracesMatches storeA query).length)
    (h3B : j < (ApiV3.FindTracesMatches storeB query).length) :
    ApiV2.GetTrace storeA idA (some e) = ([], some e) ∧
    ApiV3.GetTrace storeB idB (some e) = ([], some e) ∧
    ApiV2.FindTraces storeA query send =
      (((ApiV2.FindTracesMatches storeA query).map (fun p => p.2)).take j, some e) ∧
    ApiV3.FindTraces storeB query send =
      (((ApiV3.FindTracesMatches storeB query).map (fun p => p.2)).take j, some e) := by
  refine ⟨?_, ?_, ?_, ?_⟩
  · simp [ApiV2.GetTrace, hA]
  · simp [ApiV3.GetTrace, hB]
  · rw [ApiV2.FindTraces, findTracesAuxV2_eq_sendChunks]
    exact sendChunks_fail _ send 0 j e (by simpa using h1) (by simpa using h2)
      (by simpa using h3A)
  · rw [ApiV3.FindTraces, findTracesAuxV3_eq_sendChunks]
    exact sendChunks_fail _ send 0 j e (by simpa using h1) (by simpa using h2)
      (by simpa using h3B)

/-- A flat span owned by service `s`. -/
def sampleSpanA : ApiV2.Span :=
  { traceID := "a", spanID := 1, operationName := "opA", references := [],
    startTime := 0, duration := 0,
    process := some { serviceName := "s", tags := [] }, tags := [] }

/-- A second flat span owned by service `s`. -/
def sampleSpanB : ApiV2.Span :=
  { traceID := "b", spanID := 2, operationName := "opB", references := [],
    startTime := 0, duration := 0,
    process := some { serviceName := "s", tags := [] }, tags := [] }

/-- A flat store with two traces of service `s`. -/
def sampleStoreA : ApiV2.Store := [("a", [sampleSpanA]), ("b", [sampleSpanB])]

/-- A hierarchical trace whose resource declares service `s`. -/
def sampleTdS : ApiV3.TracesData :=
  { resourceSpans :=
      [{ resource :=
           some { attributes := [{ key := "service.name", value := some (.stringValue "s") }] },
         scopeSpans := [] }] }

/-- A hierarchical store with two traces of service `s`. -/
def sampleStoreB : ApiV3.Store := [("a", sampleTdS), ("b", sampleTdS)]

/-- A send function whose second send (index 1) fails. -/
def failingSend : Nat → Option String := fun k => if k = 1 then some "boom" else none

/-- A query for service `s` with no operation filter. -/
def sQuery : TraceQueryParameters := { serviceName := "s", operationName := "" }

/-- Claim C6, witness: two matching traces, the second send fails — only the
first chunk is delivered and the error `boom` is returned unchanged. -/
theorem stream_send_failure_witness :
    ApiV2.GetTrace sampleStoreA "a" (some "boom") = ([], some "boom") ∧
    ApiV3.GetTrace sampleStoreB "a" (some "boom") = ([], some "boom") ∧
    ApiV2.FindTraces sampleStoreA sQuery failingSend =
      (((ApiV2.FindTracesMatches sampleStoreA sQuery).map (fun p => p.2)).take 1,
        some "boom") ∧
    ApiV3.FindTraces sampleStoreB sQuery failingSend =
      (((ApiV3.FindTracesMatches sampleStoreB sQuery).map (fun p => p.2)).take 1,
        some "boom") :=
  stream_send_failure_aborts_and_propagates sampleStoreA sampleStoreB sQuery
    failingSend 1 "boom" "a" "a" [sampleSpanA] sampleTdS rfl rfl
    (by
      intro i hi
      have h0 : i = 0 := by omega
      subst h0
      rfl)
    rfl (by decide) (by decide)

/-! ## Claim C7 -/

/-- Claim C7: `GetOperations` on a service never inserted into the catalog
returns a successful response with an empty operations list, in both
variants — never an error. -/
theorem getOperations_unknown_service_empty_success
    (ops : List (String × List String)) (reqA : ApiV2.GetOperationsRequest)
    (reqB : ApiV3.GetOperationsRequest)
    (hA : mapGet ops reqA.service = none) (hB : mapGet ops reqB.service = none) :
    ApiV2.GetOperations ops reqA = ({ operations := [] }, none) ∧
    ApiV3.GetOperations ops reqB = ({ operations := [] }, none) := by
  constructor
  · simp [ApiV2.GetOperations, hA]
  · simp [ApiV3.GetOperations, hB]

/-- Claim C7, witness: a catalog knowing only `frontend`, queried for the
unknown service `ghost`. -/
theorem getOperations_unknown_service_witness :
    ApiV2.GetOperations [("frontend", ["authenticate"])]
        { service := "ghost", spanKind := "server" } = ({ operations := [] }, none) ∧
    ApiV3.GetOperations [("frontend", ["authenticate"])]
        { service := "ghost", spanKind := "" } = ({ operations := [] }, none) :=
  getOperations_unknown_service_empty_success [("frontend", ["authenticate"])]
    { service := "ghost", spanKind := "server" }
    { service := "ghost", spanKind := "" } rfl rfl

/-! ## Claim C8 -/

/-- Claim C8: last write wins with round-trip fidelity, in both variants —
`GetTrace` straight after a `Put` returns exactly the written content as its
one chunk, and a second `Put` to the same identifier fully replaces the
first (so repeated identical writes collapse as well). -/
theorem put_get_last_write_wins (storeA : ApiV2.Store) (storeB : ApiV3.Store)
    (id : String) (t1 t2 : ApiV2.Trace) (u1 u2 : ApiV3.TracesData) :
    ApiV2.GetTrace (mapPut storeA id t2) id none = ([t2], none) ∧
    mapPut (mapPut storeA id t1) id t2 = mapPut storeA id t2 ∧
    ApiV3.GetTrace (mapPut storeB id u2) id none = ([u2], none) ∧
    mapPut (mapPut storeB id u1) id u2 = mapPut storeB id u2 := by
  refine ⟨?_, mapPut_mapPut storeA id t1 t2, ?_, mapPut_mapPut storeB id u1 u2⟩
  · simp [ApiV2.GetTrace, mapGet_mapPut]
  · simp [ApiV3.GetTrace, mapGet_mapPut]

/-! ## Claim C9 -/

/-- Claim C9: every query operation of either variant (GetTrace, FindTraces,
GetServices, GetOperations, and — flat variant — GetDependencies) returns the
service state untouched: the traces map, service list and operations map
after handling equal those before. -/
theorem query_handlers_preserve_state (qA : ApiV2.QueryService)
    (rA : ApiV2.Request) (qB : ApiV3.QueryService) (rB : ApiV3.Request) :
    (ApiV2.handle qA rA).1 = qA ∧ (ApiV3.handle qB rB).1 = qB := by
  constructor
  · cases rA <;> rfl
  · cases rB <;> rfl

/-! ## Claim C10 -/

/-- Claim C10: in the flat (api_v2) variant, `GetOperations` on a known
service returns exactly the stored operation names in stored order, each
annotated with the span kind taken from the request, and no error. -/
theorem getOperations_echoes_request_span_kind
    (ops : List (String × List String)) (req : ApiV2.GetOperationsRequest)
    (names : List String) (h : mapGet ops req.service = some names) :
    ((ApiV2.GetOperations ops req).1.operations.map (fun op => op.name) = names) ∧
    (∀ op ∈ (ApiV2.GetOperations ops req).1.operations, op.spanKind = req.spanKind) ∧
    (ApiV2.GetOperations ops req).2 = none := by
  refine ⟨?_, ?_, ?_⟩
  · simp only [ApiV2.GetOperations, h, List.map_map, Function.comp]
    exact List.map_id names
  · intro op hop
    simp only [ApiV2.GetOperations, h, List.mem_map] at hop
    obtain ⟨nm, _, rfl⟩ := hop
    rfl
  · simp [ApiV2.GetOperations, h]

/-- Claim C10, witness: the theorem at a concrete catalog and a request with
span kind `server`. -/
theorem getOperations_echoes_span_kind_witness :
    ((ApiV2.GetOperations [("frontend", ["authenticate", "validate-token"])]
        { service := "frontend", spanKind := "server" }).1.operations.map
          (fun op => op.name) = ["authenticate", "validate-token"]) ∧
    (∀ op ∈ (ApiV2.GetOperations [("frontend", ["authenticate", "validate-token"])]
        { service := "frontend", spanKind := "server" }).1.operations,
      op.spanKind = "server") ∧
    ((ApiV2.GetOperations [("frontend", ["authenticate", "validate-token"])]
        { service := "frontend", spanKind := "server" }).2 = none) :=
  getOperations_echoes_request_span_kind
    [("frontend", ["authenticate", "validate-token"])]
    { service := "frontend", spanKind := "server" }
    ["authenticate", "validate-token"] rfl
